import Mathlib

/-!
Verification of the request dispatcher of the rust-crud service
(src/rust_api/src/main.rs) against its natural-language specification.

The Rust source is shallowly embedded: strings are Lean `String`s
manipulated through their character lists, the Postgres client is an
oracle `Env` recording whether `Client::connect` succeeds
(`connectOk`), whether an issued query/execute succeeds (`queryOk`),
and the table contents (`db`).  `serde_json::from_str::<User>` is an
external library and is modelled as an abstract decoder parameter
`decode : String → Option User`; every theorem holds for every
decoder.  A Rust `panic!` (the `.unwrap()` calls on `execute`/`query`)
is modelled as the handler returning `none`: no response is produced.
-/

namespace RustApi

/-- The `User` model struct: `id: Option<i32>`, `name: String`, `email: String`. -/
structure User where
  id : Option Int
  name : String
  email : String
deriving DecidableEq, Repr

/-- One row of the `users` table: (id, name, email).  The schema is
`id SERIAL PRIMARY KEY, name VARCHAR NOT NULL, email VARCHAR NOT NULL`. -/
abbrev URow := Int × String × String

/-- The state of the `users` table: its rows plus the next SERIAL id. -/
structure DB where
  rows : List URow
  nextId : Int
deriving DecidableEq, Repr

/-- The store oracle for one request: whether `Client::connect` succeeds,
whether the (single) query/execute issued by the handler succeeds, and the
table state.  The dispatcher opens a fresh connection per request. -/
structure Env where
  connectOk : Bool
  queryOk : Bool
  db : DB
deriving DecidableEq, Repr

def OK_RESPONSE : String := "HTTP/1.1 200 OK\r\nContent-Type: application/json\r\n\r\n"

def NOT_FOUND : String := "HTTP/1.1 404 NOT FOUND\r\n\r\n"

def INTERNAL_SERVER_ERROR : String := "HTTP/1.1 500 INTERNAL SERVER ERROR\r\n\r\n"

/-! ### String primitives mirroring the Rust std operations used -/

/-- `needle.isPrefixOf hay` on character lists (Rust `str::starts_with`). -/
def startsWithL : List Char → List Char → Bool
  | [], _ => true
  | _ :: _, [] => false
  | a :: as, b :: bs => a = b && startsWithL as bs

/-- Rust `str::starts_with`: `hay` starts with `needle`. -/
def strStartsWith (hay needle : String) : Bool :=
  startsWithL needle.data hay.data

/-- Substring containment on character lists (Rust `str::contains`). -/
def containsSubL (needle : List Char) : List Char → Bool
  | [] => startsWithL needle []
  | c :: cs => startsWithL needle (c :: cs) || containsSubL needle cs

/-- Rust `str::contains`: `hay` contains `needle` as a substring. -/
def strContains (hay needle : String) : Bool :=
  containsSubL needle.data hay.data

/-- Prepend a character to the first piece of a split (or start one). -/
def consHead (c : Char) : List (List Char) → List (List Char)
  | [] => [[c]]
  | p :: ps => (c :: p) :: ps

/-- Rust `str::split('/')` (single-character separator, keeps empty pieces,
always yields at least one piece). -/
def splitOnCharL (sep : Char) : List Char → List (List Char)
  | [] => [[]]
  | c :: cs =>
    if c = sep then [] :: splitOnCharL sep cs
    else consHead c (splitOnCharL sep cs)

/-- `request.split("/")` as used by `get_id`. -/
def splitSlash (l : List Char) : List (List Char) := splitOnCharL '/' l

/-- The blank-line separator `"\r\n\r\n"` between headers and body. -/
def sepL : List Char := ['\x0d', '\x0a', '\x0d', '\x0a']

/-- Rust `str::split("\r\n\r\n")`: split on each non-overlapping occurrence
of the four-character separator, left to right, keeping empty pieces. -/
def splitSep : List Char → List (List Char)
  | '\x0d' :: '\x0a' :: '\x0d' :: '\x0a' :: rest => [] :: splitSep rest
  | c :: cs => consHead c (splitSep cs)
  | [] => [[]]

/-- Whether the character list contains the blank-line separator
`"\r\n\r\n"` as a substring (`request.contains("\r\n\r\n")`). -/
def hasSep (l : List Char) : Bool := containsSubL sepL l

/-- The ASCII part of Rust `char::is_whitespace` (the requests at issue are
ASCII; the remaining Unicode white-space code points never occur here). -/
def isRustWhitespace (c : Char) : Bool :=
  c = ' ' || c = '\x09' || c = '\x0a' || c = '\x0d' || c = '\x0b' || c = '\x0c'

/-- Rust `str::split_whitespace`: the maximal runs of non-whitespace
characters, in order, with no empty tokens. -/
def wsTokens : List Char → List (List Char)
  | [] => []
  | [c] => if isRustWhitespace c then [] else [[c]]
  | c :: d :: ds =>
    if isRustWhitespace c then wsTokens (d :: ds)
    else if isRustWhitespace d then [c] :: wsTokens (d :: ds)
    else consHead c (wsTokens (d :: ds))

/-! ### Request parsing helpers from the source -/

/-- `get_id`: `request.split("/").nth(4).unwrap_or_default()
.split_whitespace().next().unwrap_or_default()` — the token at index 4 of
splitting the ENTIRE raw request on `/`, then its first
whitespace-delimited token (empty string when either step has nothing). -/
def get_id (request : String) : String :=
  ⟨(wsTokens ((splitSlash request.data).getD 4 [])).headD []⟩

/-- The string handed to serde in `get_user_request_body`:
`request.split("\r\n\r\n").last().unwrap_or_default()` — the piece after
the LAST blank-line separator (the whole request when there is none). -/
def get_body (request : String) : String :=
  ⟨(splitSep request.data).getLastD []⟩

/-- `get_user_request_body`: serde-decode the piece after the last
blank-line separator.  `decode` models `serde_json::from_str::<User>`. -/
def get_user_request_body (decode : String → Option User) (request : String) :
    Option User :=
  decode (get_body request)

/-- Rust `"...".parse::<i32>()`: optional sign, then one or more ASCII
digits, rejecting anything else and values outside the `i32` range. -/
def parseDigitsAux : List Char → Nat → Option Nat
  | [], acc => some acc
  | c :: cs, acc =>
    if '0' ≤ c ∧ c ≤ '9' then parseDigitsAux cs (acc * 10 + (c.toNat - '0'.toNat))
    else none

def parse_i32 (s : String) : Option Int :=
  match s.data with
  | [] => none
  | '+' :: ds =>
    if ds = [] then none else
      match parseDigitsAux ds 0 with
      | some n => if n ≤ 2147483647 then some (Int.ofNat n) else none
      | none => none
  | '-' :: ds =>
    if ds = [] then none else
      match parseDigitsAux ds 0 with
      | some n => if n ≤ 2147483648 then some (-(n : Int)) else none
      | none => none
  | ds =>
    match parseDigitsAux ds 0 with
    | some n => if n ≤ 2147483647 then some (Int.ofNat n) else none
    | none => none

/-! ### The store's SQL statements as pure table operations -/

/-- `SELECT * FROM users WHERE id = $1` via `query_one`: the row with the
given id, if any (`id` is the primary key, so at most one row matches). -/
def dbSelectOne (db : DB) (id : Int) : Option URow :=
  db.rows.find? (fun p => p.1 == id)

/-- `INSERT INTO users (name, email) VALUES ($1, $2)`: the store assigns
the next SERIAL id; the client-supplied id is never part of the statement. -/
def dbInsert (db : DB) (name email : String) : DB :=
  ⟨db.rows ++ [(db.nextId, name, email)], db.nextId + 1⟩

/-- `UPDATE users SET name = $1, email = $2 WHERE id = $3`: returns the
affected-row count and the new table. -/
def dbUpdate (db : DB) (id : Int) (name email : String) : Nat × DB :=
  ((db.rows.filter (fun p => p.1 == id)).length,
   ⟨db.rows.map (fun p => if p.1 == id then (p.1, name, email) else p), db.nextId⟩)

/-- `DELETE FROM users WHERE id = $1`: returns the affected-row count and
the new table. -/
def dbDelete (db : DB) (id : Int) : Nat × DB :=
  ((db.rows.filter (fun p => p.1 == id)).length,
   ⟨db.rows.filter (fun p => !(p.1 == id)), db.nextId⟩)

/-! ### Response serialization (`serde_json::to_string`) -/

/-- JSON string escaping for the characters serde escapes that can occur
here (quote, backslash, and the common control characters). -/
def jsonEscapeChar (c : Char) : List Char :=
  if c = '"' then ['\\', '"']
  else if c = '\\' then ['\\', '\\']
  else if c = '\x0a' then ['\\', 'n']
  else if c = '\x0d' then ['\\', 'r']
  else if c = '\x09' then ['\\', 't']
  else [c]

def jsonStr (s : String) : String :=
  "\"" ++ ⟨s.data.flatMap jsonEscapeChar⟩ ++ "\""

def jsonOptInt : Option Int → String
  | none => "null"
  | some i => toString i

/-- `serde_json::to_string(&user)` with serde's declaration field order. -/
def userToJson (u : User) : String :=
  "\x7b\"id\":" ++ jsonOptInt u.id ++ ",\"name\":" ++ jsonStr u.name ++
    ",\"email\":" ++ jsonStr u.email ++ "\x7d"

/-- `serde_json::to_string(&users)` for the read-all response. -/
def usersToJson (us : List User) : String :=
  "[" ++ String.intercalate "," (us.map userToJson) ++ "]"

/-! ### The handlers.  Each returns `none` for a Rust panic (the
`.unwrap()` calls on `execute`/`query` when the statement fails), and
otherwise `some` of the `(status_line, content)` pair together with the
table state after the request. -/

def handle_post_request (decode : String → Option User) (env : Env)
    (request : String) : Option ((String × String) × DB) :=
  match get_user_request_body decode request, env.connectOk with
  | some user, true =>
    if env.queryOk then
      some ((OK_RESPONSE, "User Created"), dbInsert env.db user.name user.email)
    else none
  | _, _ => some ((INTERNAL_SERVER_ERROR, "Internal Server Error"), env.db)

def handle_get_request (env : Env) (request : String) :
    Option ((String × String) × DB) :=
  match parse_i32 (get_id request), env.connectOk with
  | some id, true =>
    match (if env.queryOk then dbSelectOne env.db id else none) with
    | some row =>
      some ((OK_RESPONSE, userToJson ⟨some row.1, row.2.1, row.2.2⟩), env.db)
    | none => some ((NOT_FOUND, "User Not Found"), env.db)
  | _, _ => some ((INTERNAL_SERVER_ERROR, "Internal Server Error"), env.db)

def handle_get_all_request (env : Env) (_request : String) :
    Option ((String × String) × DB) :=
  match env.connectOk with
  | true =>
    if env.queryOk then
      some ((OK_RESPONSE,
             usersToJson (env.db.rows.map (fun p => ⟨some p.1, p.2.1, p.2.2⟩))),
            env.db)
    else none
  | false => some ((INTERNAL_SERVER_ERROR, "Internal Server Error"), env.db)

def handle_put_request (decode : String → Option User) (env : Env)
    (request : String) : Option ((String × String) × DB) :=
  match parse_i32 (get_id request), get_user_request_body decode request,
        env.connectOk with
  | some id, some user, true =>
    if env.queryOk then
      some ((OK_RESPONSE, "User Updated"), (dbUpdate env.db id user.name user.email).2)
    else none
  | _, _, _ => some ((INTERNAL_SERVER_ERROR, "Internal Server Error"), env.db)

def handle_delete_request (env : Env) (request : String) :
    Option ((String × String) × DB) :=
  match parse_i32 (get_id request), env.connectOk with
  | some id, true =>
    if env.queryOk then
      if (dbDelete env.db id).1 = 0 then
        some ((NOT_FOUND, "User Not Found"), (dbDelete env.db id).2)
      else
        some ((OK_RESPONSE, "User Deleted"), (dbDelete env.db id).2)
    else none
  | _, _ => some ((INTERNAL_SERVER_ERROR, "Internal Server Error"), env.db)

/-! ### The dispatcher (`handle_client` after a successful socket read) -/

inductive Route where
  | create | readOne | readAll | update | delete | notFound
deriving DecidableEq, Repr

/-- The classification chain of `handle_client`, first-match-wins, each
guard testing a prefix and a substring of the ENTIRE raw request buffer. -/
def route (r : String) : Route :=
  if strStartsWith r "POST" && strContains r "/users" then Route.create
  else if strStartsWith r "GET" && strContains r "/user/" then Route.readOne
  else if strStartsWith r "GET" && strContains r "/users" then Route.readAll
  else if strStartsWith r "PUT" && strContains r "/users/" then Route.update
  else if strStartsWith r "DELETE" && strContains r "/users/" then Route.delete
  else Route.notFound

/-- The `(status_line, content)` pair `handle_client` computes (with the
resulting table state); `none` models a panic inside a handler. -/
def dispatch (decode : String → Option User) (env : Env) (request : String) :
    Option ((String × String) × DB) :=
  match route request with
  | Route.create => handle_post_request decode env request
  | Route.readOne => handle_get_request env request
  | Route.readAll => handle_get_all_request env request
  | Route.update => handle_put_request decode env request
  | Route.delete => handle_delete_request env request
  | Route.notFound => some ((NOT_FOUND, "Not Found URL"), env.db)

/-- The bytes written back: `format!("{}{}", status_line, content)`. -/
def handle_client (decode : String → Option User) (env : Env)
    (request : String) : Option (String × DB) :=
  (dispatch decode env request).map (fun q => (q.1.1 ++ q.1.2, q.2))

/-! ### Spec-side definitions (used only to state claims against the code) -/

/-- Modelled from the spec: the method token, i.e. the first
whitespace-delimited token of the request line. -/
def methodTok (r : String) : String := ⟨(wsTokens r.data).getD 0 []⟩

/-- Modelled from the spec: the request path, i.e. the second
whitespace-delimited token of the request line. -/
def specPath (r : String) : String := ⟨(wsTokens r.data).getD 1 []⟩

/-- Modelled from the spec's classification: method TOKEN equality and
substring containment over the PATH only (claims C5/C6's reading). -/
def specRouteClaim (r : String) : Route :=
  if methodTok r = "POST" ∧ strContains (specPath r) "/users" = true then Route.create
  else if methodTok r = "GET" ∧ strContains (specPath r) "/user/" = true then Route.readOne
  else if methodTok r = "GET" ∧ strContains (specPath r) "/users" = true then Route.readAll
  else if methodTok r = "PUT" ∧ strContains (specPath r) "/users/" = true then Route.update
  else if methodTok r = "DELETE" ∧ strContains (specPath r) "/users/" = true then Route.delete
  else Route.notFound

/-- Identifier extraction at split-index `i` of the raw request (the
spec side of claim C4's "fixed position" refinement). -/
def specGetId (i : Nat) (r : String) : String :=
  ⟨(wsTokens ((splitSlash r.data).getD i [])).headD []⟩

/-- Modelled from the spec: the substring of the raw request following
the FIRST blank-line separator (claim C3's reading). -/
def joinSep : List (List Char) → List Char
  | [] => []
  | [p] => p
  | p :: q :: ps => p ++ sepL ++ joinSep (q :: ps)

def specBodyAfterFirstSep (r : String) : String :=
  ⟨joinSep ((splitSep r.data).tail)⟩

/-! ### Helper lemmas -/

theorem consHead_ne_nil (c : Char) (ps : List (List Char)) : consHead c ps ≠ [] := by
  cases ps <;> simp [consHead]

theorem splitSep_ne_nil (l : List Char) : splitSep l ≠ [] := by
  induction l using splitSep.induct with
  | case1 rest ih => simp [splitSep]
  | case2 c cs h ih => rw [splitSep.eq_2] <;> first | exact consHead_ne_nil c _ | exact h
  | case3 => simp [splitSep]

theorem wsTokens_eq_nil_of_all_ws (l : List Char)
    (h : ∀ c ∈ l, isRustWhitespace c = true) : wsTokens l = [] := by
  induction l with
  | nil => rfl
  | cons c cs ih =>
    have hc : isRustWhitespace c = true := h c (by simp)
    have ih' := ih (fun d hd => h d (by simp [hd]))
    cases cs with
    | nil => simp [wsTokens, hc]
    | cons d ds => simp [wsTokens, hc, ih']

theorem wsTokens_mem_no_ws (l : List Char) :
    ∀ t ∈ wsTokens l, t.all (fun c => !isRustWhitespace c) = true := by
  induction l with
  | nil => intro t ht; simp [wsTokens] at ht
  | cons c cs ih =>
    intro t ht
    cases cs with
    | nil =>
      cases hc : isRustWhitespace c with
      | true => simp [wsTokens, hc] at ht
      | false =>
        simp [wsTokens, hc] at ht
        subst ht
        simp [hc]
    | cons d ds =>
      rw [wsTokens] at ht
      cases hc : isRustWhitespace c with
      | true =>
        rw [if_pos hc] at ht
        exact ih t ht
      | false =>
        rw [if_neg (by simp [hc])] at ht
        cases hd : isRustWhitespace d with
        | true =>
          rw [if_pos hd] at ht
          rcases List.mem_cons.mp ht with rfl | ht
          · simp [hc]
          · exact ih t ht
        | false =>
          rw [if_neg (by simp [hd])] at ht
          cases hps : wsTokens (d :: ds) with
          | nil =>
            rw [hps] at ht
            simp [consHead] at ht
            subst ht
            simp [hc]
          | cons p ps =>
            rw [hps] at ht
            simp only [consHead] at ht
            rcases List.mem_cons.mp ht with rfl | ht
            · have hp := ih p (by rw [hps]; exact List.mem_cons_self p ps)
              simp [hc, List.all_cons] at hp ⊢
              exact hp
            · exact ih t (by rw [hps]; exact List.mem_cons_of_mem p ht)

/-! ### Claim C10 -/

/-- Claim C10: identifier extraction is total — `get_id` always returns a
(possibly empty) string; it yields the empty string when the request has
fewer than five slash-separated pieces, and when the piece at index 4
contains no non-whitespace token. -/
theorem c10_get_id_total : ∀ r : String,
    ((splitSlash r.data).length < 5 → get_id r = "") ∧
    ((∀ c ∈ (splitSlash r.data).getD 4 [], isRustWhitespace c = true) →
      get_id r = "") := by
  intro r
  constructor
  · intro h
    have h4 : (splitSlash r.data).getD 4 [] = [] :=
      List.getD_eq_default _ _ (by omega)
    simp only [get_id, h4]
    rfl
  · intro h
    have h4 : wsTokens ((splitSlash r.data).getD 4 []) = [] :=
      wsTokens_eq_nil_of_all_ws _ h
    simp only [get_id, h4]
    rfl

/-- Witness for C10 at the concrete request `"abc"` (a single piece). -/
theorem c10_get_id_total_witness : get_id "abc" = "" :=
  (c10_get_id_total "abc").1 (by decide)

/-! ### Claim C5 -/

/-- Claim C5 (amended): classification is first-match-wins in the stated
fixed order, but each test checks a prefix of the ENTIRE raw request
against the method name and substring containment over the ENTIRE raw
request (not the method token and the path). -/
theorem c5_first_match_routing : ∀ r : String,
    (route r = Route.create ↔
      (strStartsWith r "POST" && strContains r "/users") = true) ∧
    (route r = Route.readOne ↔
      ((strStartsWith r "POST" && strContains r "/users") = false ∧
       (strStartsWith r "GET" && strContains r "/user/") = true)) ∧
    (route r = Route.readAll ↔
      ((strStartsWith r "POST" && strContains r "/users") = false ∧
       (strStartsWith r "GET" && strContains r "/user/") = false ∧
       (strStartsWith r "GET" && strContains r "/users") = true)) ∧
    (route r = Route.update ↔
      ((strStartsWith r "POST" && strContains r "/users") = false ∧
       (strStartsWith r "GET" && strContains r "/user/") = false ∧
       (strStartsWith r "GET" && strContains r "/users") = false ∧
       (strStartsWith r "PUT" && strContains r "/users/") = true)) ∧
    (route r = Route.delete ↔
      ((strStartsWith r "POST" && strContains r "/users") = false ∧
       (strStartsWith r "GET" && strContains r "/user/") = false ∧
       (strStartsWith r "GET" && strContains r "/users") = false ∧
       (strStartsWith r "PUT" && strContains r "/users/") = false ∧
       (strStartsWith r "DELETE" && strContains r "/users/") = true)) ∧
    (route r = Route.notFound ↔
      ((strStartsWith r "POST" && strContains r "/users") = false ∧
       (strStartsWith r "GET" && strContains r "/user/") = false ∧
       (strStartsWith r "GET" && strContains r "/users") = false ∧
       (strStartsWith r "PUT" && strContains r "/users/") = false ∧
       (strStartsWith r "DELETE" && strContains r "/users/") = false)) := by
  intro r
  unfold route
  cases h1 : (strStartsWith r "POST" && strContains r "/users") <;>
    cases h2 : (strStartsWith r "GET" && strContains r "/user/") <;>
      cases h3 : (strStartsWith r "GET" && strContains r "/users") <;>
        cases h4 : (strStartsWith r "PUT" && strContains r "/users/") <;>
          cases h5 : (strStartsWith r "DELETE" && strContains r "/users/") <;>
            simp

/-- Counterexample to C5 as stated: the request `POSTER f ...` whose
method token is `POSTER` (not `POST`) and whose path `f` contains no
route substring is still classified as create, because the classifier
tests the whole buffer, where the body holds `/users`. -/
theorem c5_counterexample :
    route "POSTER f HTTP/1.1\r\n\r\n/users" = Route.create ∧
    methodTok "POSTER f HTTP/1.1\r\n\r\n/users" = "POSTER" ∧
    specPath "POSTER f HTTP/1.1\r\n\r\n/users" = "f" ∧
    specRouteClaim "POSTER f HTTP/1.1\r\n\r\n/users" = Route.notFound := by
  refine ⟨by decide, by decide, by decide, by decide⟩

/-- Witness for C5 at a concrete create request. -/
theorem c5_first_match_routing_witness :
    route "POST /users HTTP/1.1\r\n\r\nB" = Route.create :=
  (c5_first_match_routing "POST /users HTTP/1.1\r\n\r\nB").1.mpr (by decide)

/-! ### Claim C6 -/

/-- Claim C6 (amended): any request failing all five classifier tests gets
404 with the generic body `Not Found URL`; but since the tests scan the
whole buffer, a request whose method+path match no route shape can still
be routed when a route substring occurs in its body. -/
theorem c6_unmatched_404 : ∀ (decode : String → Option User) (env : Env)
    (r : String), route r = Route.notFound →
    handle_client decode env r = some (NOT_FOUND ++ "Not Found URL", env.db) := by
  intro decode env r h
  simp [handle_client, dispatch, h]

/-- Counterexample to C6 as stated: `GET / HTTP/1.1` (method+path match
no route shape) with body `/users` is answered by the read-all handler
with 200 and the serialized list, not with the generic 404. -/
theorem c6_counterexample :
    specRouteClaim "GET / HTTP/1.1\r\n\r\n/users" = Route.notFound ∧
    handle_client (fun _ => none) ⟨true, true, ⟨[], 1⟩⟩
        "GET / HTTP/1.1\r\n\r\n/users"
      = some (OK_RESPONSE ++ "[]", ⟨[], 1⟩) ∧
    OK_RESPONSE ++ "[]" ≠ NOT_FOUND ++ "Not Found URL" := by
  refine ⟨by decide, by decide, by decide⟩

/-- Witness for C6 at a concrete unmatched request (`PATCH`). -/
theorem c6_unmatched_404_witness :
    handle_client (fun _ => none) ⟨true, true, ⟨[], 1⟩⟩
        "PATCH /users/1 HTTP/1.1\r\n\r\n"
      = some (NOT_FOUND ++ "Not Found URL", ⟨[], 1⟩) :=
  c6_unmatched_404 (fun _ => none) ⟨true, true, ⟨[], 1⟩⟩
    "PATCH /users/1 HTTP/1.1\r\n\r\n" (by decide)

/-! ### Claim C9 -/

/-- Claim C9: the id field of the decoded body is never passed to the
store — replacing the decoded id by anything changes neither the create
nor the update handler's behaviour; create inserts only name and email
with the store-generated id, and update preserves every row's id. -/
theorem c9_id_never_stored : ∀ (decode : String → Option User) (env : Env)
    (r : String) (j : Option Int),
    handle_post_request decode env r =
      handle_post_request (fun s => (decode s).map (fun u => { u with id := j })) env r ∧
    handle_put_request decode env r =
      handle_put_request (fun s => (decode s).map (fun u => { u with id := j })) env r ∧
    (∀ (db : DB) (n e : String),
      (dbInsert db n e).rows = db.rows ++ [(db.nextId, n, e)]) ∧
    (∀ (db : DB) (id : Int) (n e : String),
      ((dbUpdate db id n e).2).rows.map Prod.fst = db.rows.map Prod.fst) := by
  intro decode env r j
  refine ⟨?_, ?_, fun db n e => rfl, ?_⟩
  · cases hd : decode (get_body r) <;> cases hc : env.connectOk <;>
      simp [handle_post_request, get_user_request_body, hd, hc]
  · cases hd : decode (get_body r) <;> cases hc : env.connectOk <;>
      cases hp : parse_i32 (get_id r) <;>
        simp [handle_put_request, get_user_request_body, hd, hc, hp]
  · intro db id n e
    simp only [dbUpdate, List.map_map]
    apply List.map_congr_left
    intro p _
    simp only [Function.comp_apply]
    split <;> rfl

/-! ### Claim C2 -/

/-- Claim C2 (amended): for an update request whose identifier parses and
whose body decodes, with a successful connection and statement execution,
an id matching no record makes the UPDATE affect zero rows — and the
dispatcher nevertheless answers 200 `User Updated`: the zero-row outcome
is not distinguished at all (neither 500 nor 404). -/
theorem c2_update_missing_id : ∀ (decode : String → Option User) (env : Env)
    (r : String) (id : Int) (u : User),
    route r = Route.update →
    parse_i32 (get_id r) = some id →
    decode (get_body r) = some u →
    env.connectOk = true → env.queryOk = true →
    dbSelectOne env.db id = none →
    (dbUpdate env.db id u.name u.email).1 = 0 ∧
    dispatch decode env r =
      some ((OK_RESPONSE, "User Updated"), (dbUpdate env.db id u.name u.email).2) := by
  intro decode env r id u hr hp hd hc hq hsel
  constructor
  · simp only [dbUpdate]
    rw [List.length_eq_zero, List.filter_eq_nil_iff]
    simp only [dbSelectOne] at hsel
    exact List.find?_eq_none.mp hsel
  · simp [dispatch, hr, handle_put_request, get_user_request_body, hp, hd, hc, hq]

/-- Counterexample to C2 as stated: updating id 5 in an empty store
affects zero rows, yet the response is 200 `User Updated`, not 500. -/
theorem c2_counterexample :
    dispatch (fun _ => some ⟨none, "N", "E"⟩) ⟨true, true, ⟨[], 1⟩⟩
        "PUT /users/5/5/5 HTTP/1.1\r\n\r\nB"
      = some ((OK_RESPONSE, "User Updated"), ⟨[], 1⟩) ∧
    (dbUpdate ⟨[], 1⟩ 5 "N" "E").1 = 0 ∧
    OK_RESPONSE ≠ INTERNAL_SERVER_ERROR := by
  refine ⟨by decide, by decide, by decide⟩

/-- Witness for C2 at a concrete update request for the absent id 7. -/
theorem c2_update_missing_id_witness :
    (dbUpdate ⟨[], 1⟩ 7 "N" "E").1 = 0 ∧
    dispatch (fun _ => some ⟨none, "N", "E"⟩) ⟨true, true, ⟨[], 1⟩⟩
        "PUT /users/7/7/7 HTTP/1.1\r\n\r\nB"
      = some ((OK_RESPONSE, "User Updated"), (dbUpdate ⟨[], 1⟩ 7 "N" "E").2) :=
  c2_update_missing_id (fun _ => some ⟨none, "N", "E"⟩) ⟨true, true, ⟨[], 1⟩⟩
    "PUT /users/7/7/7 HTTP/1.1\r\n\r\nB" 7 ⟨none, "N", "E"⟩
    (by decide) (by decide) rfl rfl rfl (by decide)

/-! ### Claim C7 -/

/-- Claim C7: for a delete request whose identifier parses, with a
successful connection and a DELETE execution returning a count: at least
one affected row gives 200 `User Deleted`, zero affected rows gives 404
`User Not Found`; and a subsequent read-one for the deleted id against
the resulting store answers 404. -/
theorem c7_delete_behaviour : ∀ (decode : String → Option User) (env : Env)
    (r r2 : String) (id : Int),
    route r = Route.delete →
    parse_i32 (get_id r) = some id →
    env.connectOk = true → env.queryOk = true →
    ((dbDelete env.db id).1 ≠ 0 →
      dispatch decode env r =
        some ((OK_RESPONSE, "User Deleted"), (dbDelete env.db id).2)) ∧
    ((dbDelete env.db id).1 = 0 →
      dispatch decode env r =
        some ((NOT_FOUND, "User Not Found"), (dbDelete env.db id).2)) ∧
    (route r2 = Route.readOne → parse_i32 (get_id r2) = some id →
      dispatch decode ⟨true, true, (dbDelete env.db id).2⟩ r2 =
        some ((NOT_FOUND, "User Not Found"), (dbDelete env.db id).2)) := by
  intro decode env r r2 id hr hp hc hq
  refine ⟨?_, ?_, ?_⟩
  · intro hne
    simp [dispatch, hr, handle_delete_request, hp, hc, hq, hne]
  · intro h0
    simp [dispatch, hr, handle_delete_request, hp, hc, hq, h0]
  · intro hr2 hp2
    have hsel : dbSelectOne (dbDelete env.db id).2 id = none := by
      simp only [dbSelectOne, dbDelete]
      rw [List.find?_eq_none]
      intro p hp'
      rcases List.mem_filter.mp hp' with ⟨_, hpred⟩
      simpa using hpred
    simp [dispatch, hr2, handle_get_request, hp2, hsel]

/-- Witness for C7: delete id 1 from a store holding it (200), then
read-one for id 1 against the resulting store (404). -/
theorem c7_delete_behaviour_witness :
    dispatch (fun _ => none) ⟨true, true, ⟨[(1, "Ann", "a@x.com")], 2⟩⟩
        "DELETE /users/1/1/1 HTTP/1.1\r\n\r\n"
      = some ((OK_RESPONSE, "User Deleted"),
              (dbDelete ⟨[(1, "Ann", "a@x.com")], 2⟩ 1).2) ∧
    dispatch (fun _ => none) ⟨true, true, (dbDelete ⟨[(1, "Ann", "a@x.com")], 2⟩ 1).2⟩
        "GET /user/1/1/1 HTTP/1.1\r\n\r\n"
      = some ((NOT_FOUND, "User Not Found"),
              (dbDelete ⟨[(1, "Ann", "a@x.com")], 2⟩ 1).2) := by
  have h := c7_delete_behaviour (fun _ => none) ⟨true, true, ⟨[(1, "Ann", "a@x.com")], 2⟩⟩
    "DELETE /users/1/1/1 HTTP/1.1\r\n\r\n" "GET /user/1/1/1 HTTP/1.1\r\n\r\n" 1
    (by decide) (by decide) rfl rfl
  exact ⟨h.1 (by decide), h.2.2 (by decide) (by decide)⟩

/-! ### Claim C1 -/

theorem handle_post_connect_false (decode : String → Option User) (env : Env)
    (r : String) (h : env.connectOk = false) :
    handle_post_request decode env r =
      some ((INTERNAL_SERVER_ERROR, "Internal Server Error"), env.db) := by
  cases hd : get_user_request_body decode r <;>
    simp [handle_post_request, hd, h]

theorem handle_get_connect_false (env : Env) (r : String)
    (h : env.connectOk = false) :
    handle_get_request env r =
      some ((INTERNAL_SERVER_ERROR, "Internal Server Error"), env.db) := by
  cases hp : parse_i32 (get_id r) <;>
    simp [handle_get_request, hp, h]

theorem handle_get_all_connect_false (env : Env) (r : String)
    (h : env.connectOk = false) :
    handle_get_all_request env r =
      some ((INTERNAL_SERVER_ERROR, "Internal Server Error"), env.db) := by
  simp [handle_get_all_request, h]

theorem handle_put_connect_false (decode : String → Option User) (env : Env)
    (r : String) (h : env.connectOk = false) :
    handle_put_request decode env r =
      some ((INTERNAL_SERVER_ERROR, "Internal Server Error"), env.db) := by
  cases hd : get_user_request_body decode r <;>
    cases hp : parse_i32 (get_id r) <;>
      simp [handle_put_request, hd, hp, h]

theorem handle_delete_connect_false (env : Env) (r : String)
    (h : env.connectOk = false) :
    handle_delete_request env r =
      some ((INTERNAL_SERVER_ERROR, "Internal Server Error"), env.db) := by
  cases hp : parse_i32 (get_id r) <;>
    simp [handle_delete_request, hp, h]

/-- Claim C1 (amended): connection-establishment failures (and id-parse /
body-decode failures) are caught and mapped to 500 — but a query/execute
failure AFTER a successful connection is not caught at the handler
boundary: in create, read-all, update and delete it panics (the
`.unwrap()` calls), so no response reaches the connection; in read-one it
is mapped to 404 `User Not Found` rather than 500. -/
theorem c1_error_mapping : ∀ (decode : String → Option User) (env : Env)
    (r : String),
    (env.connectOk = false → route r ≠ Route.notFound →
      dispatch decode env r =
        some ((INTERNAL_SERVER_ERROR, "Internal Server Error"), env.db)) ∧
    (env.connectOk = true → env.queryOk = false →
      (route r = Route.create → (get_user_request_body decode r).isSome = true →
        dispatch decode env r = none) ∧
      (route r = Route.readAll → dispatch decode env r = none) ∧
      (route r = Route.update → (parse_i32 (get_id r)).isSome = true →
        (get_user_request_body decode r).isSome = true →
        dispatch decode env r = none) ∧
      (route r = Route.delete → (parse_i32 (get_id r)).isSome = true →
        dispatch decode env r = none) ∧
      (route r = Route.readOne → (parse_i32 (get_id r)).isSome = true →
        dispatch decode env r = some ((NOT_FOUND, "User Not Found"), env.db))) := by
  intro decode env r
  constructor
  · intro hc hnf
    cases hr : route r with
    | create => simp [dispatch, hr, handle_post_connect_false decode env r hc]
    | readOne => simp [dispatch, hr, handle_get_connect_false env r hc]
    | readAll => simp [dispatch, hr, handle_get_all_connect_false env r hc]
    | update => simp [dispatch, hr, handle_put_connect_false decode env r hc]
    | delete => simp [dispatch, hr, handle_delete_connect_false env r hc]
    | notFound => exact absurd hr hnf
  · intro hc hq
    refine ⟨?_, ?_, ?_, ?_, ?_⟩
    · intro hr hb
      obtain ⟨u, hu⟩ := Option.isSome_iff_exists.mp hb
      simp [dispatch, hr, handle_post_request, hu, hc, hq]
    · intro hr
      simp [dispatch, hr, handle_get_all_request, hc, hq]
    · intro hr hp hb
      obtain ⟨id, hid⟩ := Option.isSome_iff_exists.mp hp
      obtain ⟨u, hu⟩ := Option.isSome_iff_exists.mp hb
      simp [dispatch, hr, handle_put_request, hid, hu, hc, hq]
    · intro hr hp
      obtain ⟨id, hid⟩ := Option.isSome_iff_exists.mp hp
      simp [dispatch, hr, handle_delete_request, hid, hc, hq]
    · intro hr hp
      obtain ⟨id, hid⟩ := Option.isSome_iff_exists.mp hp
      simp [dispatch, hr, handle_get_request, hid, hc, hq]

/-- Counterexample to C1 as stated: a create request against a store
whose connection succeeds but whose INSERT execution fails panics — the
dispatcher produces no response at all instead of a 500. -/
theorem c1_counterexample :
    handle_client (fun _ => some ⟨none, "A", "B"⟩) ⟨true, false, ⟨[], 1⟩⟩
        "POST /users HTTP/1.1\r\n\r\nB" = none := by
  decide

/-- Witness for C1: the connect-failure branch maps to 500, and the
execute-failure branch of create panics, at concrete requests. -/
theorem c1_error_mapping_witness :
    dispatch (fun _ => some ⟨none, "A", "B"⟩) ⟨false, true, ⟨[], 1⟩⟩
        "POST /users HTTP/1.1\r\n\r\nC"
      = some ((INTERNAL_SERVER_ERROR, "Internal Server Error"), ⟨[], 1⟩) ∧
    dispatch (fun _ => some ⟨none, "A", "B"⟩) ⟨true, false, ⟨[], 1⟩⟩
        "POST /users HTTP/1.1\r\n\r\nC" = none :=
  ⟨(c1_error_mapping (fun _ => some ⟨none, "A", "B"⟩) ⟨false, true, ⟨[], 1⟩⟩
      "POST /users HTTP/1.1\r\n\r\nC").1 rfl (by decide),
   ((c1_error_mapping (fun _ => some ⟨none, "A", "B"⟩) ⟨true, false, ⟨[], 1⟩⟩
      "POST /users HTTP/1.1\r\n\r\nC").2 rfl rfl).1 (by decide) (by decide)⟩

/-! ### Claim C8 -/

theorem handle_post_status (decode : String → Option User) (env : Env)
    (r : String) (q : (String × String) × DB)
    (h : handle_post_request decode env r = some q) :
    q.1.1 = OK_RESPONSE ∨ q.1.1 = INTERNAL_SERVER_ERROR := by
  unfold handle_post_request at h
  split at h
  · split at h
    · simp only [Option.some.injEq] at h
      subst h
      left; rfl
    · simp at h
  · simp only [Option.some.injEq] at h
    subst h
    right; rfl

theorem handle_get_status (env : Env) (r : String) (q : (String × String) × DB)
    (h : handle_get_request env r = some q) :
    q.1.1 = OK_RESPONSE ∨ q.1.1 = NOT_FOUND ∨ q.1.1 = INTERNAL_SERVER_ERROR := by
  unfold handle_get_request at h
  split at h
  · split at h
    · simp only [Option.some.injEq] at h
      subst h
      left; rfl
    · simp only [Option.some.injEq] at h
      subst h
      right; left; rfl
  · simp only [Option.some.injEq] at h
    subst h
    right; right; rfl

theorem handle_get_all_status (env : Env) (r : String)
    (q : (String × String) × DB) (h : handle_get_all_request env r = some q) :
    q.1.1 = OK_RESPONSE ∨ q.1.1 = INTERNAL_SERVER_ERROR := by
  unfold handle_get_all_request at h
  split at h
  · split at h
    · simp only [Option.some.injEq] at h
      subst h
      left; rfl
    · simp at h
  · simp only [Option.some.injEq] at h
    subst h
    right; rfl

theorem handle_put_status (decode : String → Option User) (env : Env)
    (r : String) (q : (String × String) × DB)
    (h : handle_put_request decode env r = some q) :
    q.1.1 = OK_RESPONSE ∨ q.1.1 = INTERNAL_SERVER_ERROR := by
  unfold handle_put_request at h
  split at h
  · split at h
    · simp only [Option.some.injEq] at h
      subst h
      left; rfl
    · simp at h
  · simp only [Option.some.injEq] at h
    subst h
    right; rfl

theorem handle_delete_status (env : Env) (r : String)
    (q : (String × String) × DB) (h : handle_delete_request env r = some q) :
    q.1.1 = OK_RESPONSE ∨ q.1.1 = NOT_FOUND ∨ q.1.1 = INTERNAL_SERVER_ERROR := by
  unfold handle_delete_request at h
  split at h
  · split at h
    · split at h
      · simp only [Option.some.injEq] at h
        subst h
        right; left; rfl
      · simp only [Option.some.injEq] at h
        subst h
        left; rfl
    · simp at h
  · simp only [Option.some.injEq] at h
    subst h
    right; right; rfl

theorem dispatch_status (decode : String → Option User) (env : Env)
    (r : String) (q : (String × String) × DB)
    (h : dispatch decode env r = some q) :
    q.1.1 = OK_RESPONSE ∨ q.1.1 = NOT_FOUND ∨ q.1.1 = INTERNAL_SERVER_ERROR := by
  unfold dispatch at h
  split at h
  · rcases handle_post_status _ _ _ _ h with h' | h'
    · exact Or.inl h'
    · exact Or.inr (Or.inr h')
  · exact handle_get_status _ _ _ h
  · rcases handle_get_all_status _ _ _ h with h' | h'
    · exact Or.inl h'
    · exact Or.inr (Or.inr h')
  · rcases handle_put_status _ _ _ _ h with h' | h'
    · exact Or.inl h'
    · exact Or.inr (Or.inr h')
  · exact handle_delete_status _ _ _ h
  · simp only [Option.some.injEq] at h
    subst h
    right; left; rfl

/-- Claim C8 (amended): every emitted response is one of the three fixed
status-line constants followed directly by the body bytes (no length or
chunked framing); the content-type header is present exactly when the
status is 200 OK — the 404 and 500 responses carry their (nonempty)
bodies with no content-type header. -/
theorem c8_response_format : ∀ (decode : String → Option User) (env : Env)
    (r : String) (q : (String × String) × DB),
    dispatch decode env r = some q →
    (q.1.1 = OK_RESPONSE ∨ q.1.1 = NOT_FOUND ∨ q.1.1 = INTERNAL_SERVER_ERROR) ∧
    handle_client decode env r = some (q.1.1 ++ q.1.2, q.2) ∧
    (strContains q.1.1 "Content-Type:" = true ↔ q.1.1 = OK_RESPONSE) ∧
    OK_RESPONSE =
      "HTTP/1.1 200 OK" ++ "\r\n" ++ "Content-Type: application/json" ++
        "\r\n" ++ "\r\n" ∧
    NOT_FOUND = "HTTP/1.1 404 NOT FOUND" ++ "\r\n" ++ "\r\n" ∧
    INTERNAL_SERVER_ERROR =
      "HTTP/1.1 500 INTERNAL SERVER ERROR" ++ "\r\n" ++ "\r\n" := by
  intro decode env r q h
  have hst := dispatch_status decode env r q h
  refine ⟨hst, ?_, ?_, by decide, by decide, by decide⟩
  · simp [handle_client, h]
  · rcases hst with h' | h' | h' <;> rw [h'] <;> decide

/-- Counterexample to C8 as stated: the generic 404 response has a
nonempty body but no content-type header, so the header is not present
exactly when a body is present. -/
theorem c8_counterexample :
    handle_client (fun _ => none) ⟨true, true, ⟨[], 1⟩⟩ "ABCD"
      = some (NOT_FOUND ++ "Not Found URL", ⟨[], 1⟩) ∧
    ("Not Found URL" : String) ≠ "" ∧
    strContains (NOT_FOUND ++ "Not Found URL") "Content-Type" = false := by
  refine ⟨by decide, by decide, by decide⟩

/-- Witness for C8 at the concrete unmatched request `"ABC"`. -/
theorem c8_response_format_witness :
    (NOT_FOUND = OK_RESPONSE ∨ NOT_FOUND = NOT_FOUND ∨
      NOT_FOUND = INTERNAL_SERVER_ERROR) ∧
    handle_client (fun _ => none) ⟨true, true, ⟨[], 1⟩⟩ "ABC"
      = some (NOT_FOUND ++ "Not Found URL", ⟨[], 1⟩) ∧
    (strContains NOT_FOUND "Content-Type:" = true ↔ NOT_FOUND = OK_RESPONSE) ∧
    OK_RESPONSE =
      "HTTP/1.1 200 OK" ++ "\r\n" ++ "Content-Type: application/json" ++
        "\r\n" ++ "\r\n" ∧
    NOT_FOUND = "HTTP/1.1 404 NOT FOUND" ++ "\r\n" ++ "\r\n" ∧
    INTERNAL_SERVER_ERROR =
      "HTTP/1.1 500 INTERNAL SERVER ERROR" ++ "\r\n" ++ "\r\n" :=
  c8_response_format (fun _ => none) ⟨true, true, ⟨[], 1⟩⟩ "ABC"
    ((NOT_FOUND, "Not Found URL"), ⟨[], 1⟩) (by decide)

/-! ### Claim C4 -/

theorem get_id_no_ws (r : String) :
    (get_id r).data.all (fun c => !isRustWhitespace c) = true := by
  unfold get_id
  cases hps : wsTokens ((splitSlash r.data).getD 4 []) with
  | nil => rfl
  | cons t ts =>
    exact wsTokens_mem_no_ws ((splitSlash r.data).getD 4 []) t
      (by rw [hps]; exact List.mem_cons_self t ts)

/-- Claim C4 (amended): all three id-consuming handlers derive the
identifier from the SAME fixed index — token 4 of splitting the entire
raw request (not just the path) on `/` — with leading whitespace skipped
and everything from the first whitespace run onward stripped; the index
does not differ between the read-one and the update/delete routes. -/
theorem c4_identifier_extraction : ∀ (decode : String → Option User)
    (env : Env) (r1 r2 : String),
    get_id r1 = specGetId 4 r1 ∧
    (get_id r1).data.all (fun c => !isRustWhitespace c) = true ∧
    (specGetId 4 r1 = specGetId 4 r2 → get_body r1 = get_body r2 →
      handle_get_request env r1 = handle_get_request env r2 ∧
      handle_put_request decode env r1 = handle_put_request decode env r2 ∧
      handle_delete_request env r1 = handle_delete_request env r2) := by
  intro decode env r1 r2
  refine ⟨rfl, get_id_no_ws r1, ?_⟩
  · intro hid hbody
    have hgi : get_id r1 = get_id r2 := hid
    refine ⟨?_, ?_, ?_⟩
    · unfold handle_get_request
      rw [hgi]
    · unfold handle_put_request get_user_request_body
      rw [hgi, hbody]
    · unfold handle_delete_request
      rw [hgi]

/-- Counterexample to C4 as stated: for the read-one request
`GET /user/7 ...` with a header containing slashes, `get_id` returns a
header fragment `b`, not any segment of the path `/user/7` — the token
index is 4 over the whole request and identical for every route, not a
per-route path-segment position. -/
theorem c4_counterexample :
    route "GET /user/7 HTTP/1.1\r\nAccept: a/b\r\n\r\n" = Route.readOne ∧
    specPath "GET /user/7 HTTP/1.1\r\nAccept: a/b\r\n\r\n" = "/user/7" ∧
    get_id "GET /user/7 HTTP/1.1\r\nAccept: a/b\r\n\r\n" = "b" ∧
    ("b" ∉ (splitSlash ("/user/7" : String).data).map
        (fun l => (⟨l⟩ : String))) ∧
    get_id "PUT /users/7 HTTP/1.1\r\nAccept: a/b\r\n\r\n" = "b" := by
  refine ⟨by decide, by decide, by decide, by decide, by decide⟩

/-- Witness for C4: a read-one and an update request with the same
index-4 token and the same body are handled identically. -/
theorem c4_identifier_extraction_witness :
    get_id "GET /user/9/9/9 HTTP/1.1\r\n\r\nA"
      = specGetId 4 "GET /user/9/9/9 HTTP/1.1\r\n\r\nA" ∧
    (get_id "GET /user/9/9/9 HTTP/1.1\r\n\r\nA").data.all
      (fun c => !isRustWhitespace c) = true ∧
    (handle_get_request ⟨true, true, ⟨[], 1⟩⟩ "GET /user/9/9/9 HTTP/1.1\r\n\r\nA"
      = handle_get_request ⟨true, true, ⟨[], 1⟩⟩ "PUT /users/9/9/9 HTTP/1.1\r\n\r\nA" ∧
     handle_put_request (fun _ => none) ⟨true, true, ⟨[], 1⟩⟩
        "GET /user/9/9/9 HTTP/1.1\r\n\r\nA"
      = handle_put_request (fun _ => none) ⟨true, true, ⟨[], 1⟩⟩
        "PUT /users/9/9/9 HTTP/1.1\r\n\r\nA" ∧
     handle_delete_request ⟨true, true, ⟨[], 1⟩⟩ "GET /user/9/9/9 HTTP/1.1\r\n\r\nA"
      = handle_delete_request ⟨true, true, ⟨[], 1⟩⟩
        "PUT /users/9/9/9 HTTP/1.1\r\n\r\nA") :=
  have h := c4_identifier_extraction (fun _ => none) ⟨true, true, ⟨[], 1⟩⟩
    "GET /user/9/9/9 HTTP/1.1\r\n\r\nA" "PUT /users/9/9/9 HTTP/1.1\r\n\r\nA"
  ⟨h.1, h.2.1, h.2.2 (by decide) (by decide)⟩

/-! ### Claim C3: lemmas about the blank-line split -/

theorem startsWithL_iff : ∀ (n h : List Char),
    startsWithL n h = true ↔ ∃ t, h = n ++ t := by
  intro n
  induction n with
  | nil => intro h; simp [startsWithL]
  | cons a as ih =>
    intro h
    cases h with
    | nil => simp [startsWithL]
    | cons b bs =>
      simp only [startsWithL, Bool.and_eq_true, decide_eq_true_eq, ih bs,
        List.cons_append, List.cons.injEq]
      constructor
      · rintro ⟨rfl, t, rfl⟩
        exact ⟨t, rfl, rfl⟩
      · rintro ⟨t, rfl, rfl⟩
        exact ⟨rfl, t, rfl⟩

theorem not_startsWith_sepL (c : Char) (cs : List Char)
    (h : ∀ rest, c = '\x0d' → cs = '\x0a' :: '\x0d' :: '\x0a' :: rest → False) :
    startsWithL sepL (c :: cs) = false := by
  cases hs : startsWithL sepL (c :: cs) with
  | false => rfl
  | true =>
    obtain ⟨t, ht⟩ := (startsWithL_iff sepL (c :: cs)).mp hs
    simp only [sepL, List.cons_append, List.nil_append, List.cons.injEq] at ht
    exact (h t ht.1 ht.2).elim

theorem hasSep_cons (c : Char) (cs : List Char) :
    hasSep (c :: cs) = (startsWithL sepL (c :: cs) || hasSep cs) := rfl

theorem joinSep_consHead (c : Char) (ps : List (List Char)) (h : ps ≠ []) :
    joinSep (consHead c ps) = c :: joinSep ps := by
  rcases ps with _ | ⟨p, _ | ⟨q, t⟩⟩
  · exact absurd rfl h
  · rfl
  · rfl

theorem joinSep_splitSep (l : List Char) : joinSep (splitSep l) = l := by
  induction l using splitSep.induct with
  | case1 rest ih =>
    rw [splitSep.eq_1]
    rcases hps : splitSep rest with _ | ⟨q, qs⟩
    · exact absurd hps (splitSep_ne_nil rest)
    · rw [hps] at ih
      simp only [joinSep, List.nil_append]
      rw [ih]
      rfl
  | case2 c cs h ih =>
    rw [splitSep.eq_2 c cs h, joinSep_consHead c _ (splitSep_ne_nil cs), ih]
  | case3 => rfl

theorem hasSep_false_splitSep (l : List Char) (h : hasSep l = false) :
    splitSep l = [l] := by
  induction l using splitSep.induct with
  | case1 rest ih =>
    exfalso
    have hst : startsWithL sepL ('\x0d' :: '\x0a' :: '\x0d' :: '\x0a' :: rest) = true :=
      (startsWithL_iff _ _).mpr ⟨rest, rfl⟩
    rw [hasSep_cons, hst] at h
    simp at h
  | case2 c cs h2 ih =>
    have hs : startsWithL sepL (c :: cs) = false := not_startsWith_sepL c cs h2
    rw [hasSep_cons, hs, Bool.false_or] at h
    rw [splitSep.eq_2 c cs h2, ih h]
    rfl
  | case3 => rfl

theorem hasSep_true_two_pieces (l : List Char) (h : hasSep l = true) :
    2 ≤ (splitSep l).length := by
  induction l using splitSep.induct with
  | case1 rest ih =>
    rw [splitSep.eq_1]
    rcases hps : splitSep rest with _ | ⟨q, qs⟩
    · exact absurd hps (splitSep_ne_nil rest)
    · simp
  | case2 c cs h2 ih =>
    have hs : startsWithL sepL (c :: cs) = false := not_startsWith_sepL c cs h2
    rw [hasSep_cons, hs, Bool.false_or] at h
    rw [splitSep.eq_2 c cs h2]
    have hl := ih h
    rcases hps : splitSep cs with _ | ⟨p, ps⟩
    · exact absurd hps (splitSep_ne_nil cs)
    · rw [hps] at hl
      simp only [consHead, List.length_cons] at hl ⊢
      omega
  | case3 => simp [hasSep, containsSubL, startsWithL] at h

theorem getLastD_cons_cons {α : Type} (a b : α) (t : List α) (d : α) :
    (a :: b :: t).getLastD d = (b :: t).getLastD d := by
  simp [List.getLastD_cons]

theorem splitSep_last_noSep (l : List Char) :
    hasSep ((splitSep l).getLastD []) = false := by
  induction l using splitSep.induct with
  | case1 rest ih =>
    rw [splitSep.eq_1]
    rcases hps : splitSep rest with _ | ⟨q, qs⟩
    · exact absurd hps (splitSep_ne_nil rest)
    · rw [hps] at ih
      rw [getLastD_cons_cons]
      exact ih
  | case2 c cs h2 ih =>
    rw [splitSep.eq_2 c cs h2]
    rcases hps : splitSep cs with _ | ⟨p, ps⟩
    · exact absurd hps (splitSep_ne_nil cs)
    · rw [hps] at ih
      rcases ps with _ | ⟨p2, ps2⟩
      · have hp : p = cs := by
          have hj := joinSep_splitSep cs
          rw [hps] at hj
          exact hj
        have hs := not_startsWith_sepL c cs h2
        have hcs : hasSep cs = false := by
          have hip : hasSep p = false := ih
          rwa [hp] at hip
        rw [hp]
        show hasSep (c :: cs) = false
        rw [hasSep_cons, hs, hcs]
        rfl
      · simp only [consHead]
        rw [getLastD_cons_cons]
        rw [getLastD_cons_cons] at ih
        exact ih
  | case3 => rfl

theorem joinSep_last (ps : List (List Char)) (h : 2 ≤ ps.length) :
    ∃ q, joinSep ps = q ++ sepL ++ ps.getLastD [] := by
  induction ps with
  | nil => simp at h
  | cons a t iht =>
    rcases t with _ | ⟨b, t2⟩
    · simp at h
    · rcases t2 with _ | ⟨c2, t3⟩
      · exact ⟨a, rfl⟩
      · obtain ⟨q, hq⟩ := iht (by simp)
        refine ⟨a ++ sepL ++ q, ?_⟩
        have hj : joinSep (a :: b :: c2 :: t3) = a ++ sepL ++ joinSep (b :: c2 :: t3) := rfl
        rw [hj, hq, getLastD_cons_cons]
        simp [List.append_assoc]

/-- Claim C3 (amended): for create/update, the payload handed to the
decoder is the substring of the raw request following the LAST blank-line
separator (the whole request when none occurs) — decoded as a structured
record with `name` and `email` fields, with decoding failure answered by
a 500 response. -/
theorem c3_body_extraction : ∀ (decode : String → Option User) (env : Env)
    (r : String),
    (hasSep r.data = false → get_body r = r) ∧
    (hasSep r.data = true →
      ∃ p : List Char, r.data = p ++ sepL ++ (get_body r).data ∧
        hasSep (get_body r).data = false) ∧
    (get_user_request_body decode r = decode (get_body r)) ∧
    (decode (get_body r) = none →
      handle_post_request decode env r =
        some ((INTERNAL_SERVER_ERROR, "Internal Server Error"), env.db) ∧
      handle_put_request decode env r =
        some ((INTERNAL_SERVER_ERROR, "Internal Server Error"), env.db)) := by
  intro decode env r
  refine ⟨?_, ?_, rfl, ?_⟩
  · intro h
    have hsp := hasSep_false_splitSep r.data h
    simp only [get_body, hsp]
    rfl
  · intro h
    obtain ⟨q, hq⟩ := joinSep_last (splitSep r.data) (hasSep_true_two_pieces r.data h)
    refine ⟨q, ?_, splitSep_last_noSep r.data⟩
    conv_lhs => rw [← joinSep_splitSep r.data]
    rw [hq]
    rfl
  · intro hd
    constructor
    · cases hc : env.connectOk <;>
        simp [handle_post_request, get_user_request_body, hd, hc]
    · cases hc : env.connectOk <;> cases hp : parse_i32 (get_id r) <;>
        simp [handle_put_request, get_user_request_body, hd, hc, hp]

/-- Counterexample to C3 as stated: when the raw request contains two
blank-line separators, the decoder receives the piece after the LAST one
(`Y`), not the substring after the first one (`X\r\n\r\nY`). -/
theorem c3_counterexample :
    get_body "POST /users HTTP/1.1\r\n\r\nX\r\n\r\nY" = "Y" ∧
    specBodyAfterFirstSep "POST /users HTTP/1.1\r\n\r\nX\r\n\r\nY" = "X\r\n\r\nY" ∧
    ("Y" : String) ≠ "X\r\n\r\nY" ∧
    route "POST /users HTTP/1.1\r\n\r\nX\r\n\r\nY" = Route.create := by
  refine ⟨by decide, by decide, by decide, by decide⟩

/-- Witness for C3: a decoder failing on the extracted payload yields 500
for both create and update at a concrete request. -/
theorem c3_body_extraction_witness :
    handle_post_request (fun _ => none) ⟨true, true, ⟨[], 1⟩⟩
        "POST /users HTTP/1.1\r\n\r\nnotjson"
      = some ((INTERNAL_SERVER_ERROR, "Internal Server Error"), ⟨[], 1⟩) ∧
    handle_put_request (fun _ => none) ⟨true, true, ⟨[], 1⟩⟩
        "POST /users HTTP/1.1\r\n\r\nnotjson"
      = some ((INTERNAL_SERVER_ERROR, "Internal Server Error"), ⟨[], 1⟩) :=
  (c3_body_extraction (fun _ => none) ⟨true, true, ⟨[], 1⟩⟩
    "POST /users HTTP/1.1\r\n\r\nnotjson").2.2.2 rfl

end RustApi
